import Mathlib

/-!
# Verification of the TGSPDCL executive-dashboard metrics generators

Shallow embedding of the mock-data generators and the Today-vs-Yesterday
delta computations of `src/app.py`.  Python's `random.randint(a, b)` and
`random.uniform(a, b)` are modelled by explicit draw parameters together
with a validity predicate stating the inclusive sampling bounds; Python
floats are modelled by rationals; Python's `int(x)` truncation is `pyInt`.
-/

/-- Python `int(x)` on a float: truncation toward zero. -/
def pyInt (q : ℚ) : ℤ := if 0 ≤ q then ⌊q⌋ else ⌈q⌉

theorem pyInt_of_nonneg {q : ℚ} (h : 0 ≤ q) : pyInt q = ⌊q⌋ := by
  simp [pyInt, h]

theorem pyInt_nonneg {q : ℚ} (h : 0 ≤ q) : 0 ≤ pyInt q := by
  rw [pyInt_of_nonneg h]
  exact Int.floor_nonneg.mpr h

/-! ## `get_live_metrics` (src/app.py lines 159–177) -/

/-- The random draws consumed by one call of `get_live_metrics`. -/
structure LiveDraws where
  /-- `random.randint(-200, 200)` added to the base 4500. -/
  baseDelta : ℤ
  /-- `random.uniform(0.1, 0.3)`, drawn in the business-hours branch. -/
  peakU : ℚ
  /-- `random.uniform(0.1, 0.2)`, drawn in the off-hours branch. -/
  offU : ℚ
  /-- `random.randint(80, 180)`. -/
  activeBase : ℤ
  /-- `random.randint(5, 35)`. -/
  queue : ℤ
  /-- `random.uniform(45, 85)`. -/
  capacity : ℚ
  /-- `random.uniform(8, 45)`. -/
  avgWait : ℚ
  /-- `random.randint(200, 450)`. -/
  callsPerHour : ℤ

/-- The inclusive bounds of the random calls in `get_live_metrics`. -/
def LiveDraws.Valid (d : LiveDraws) : Prop :=
  -200 ≤ d.baseDelta ∧ d.baseDelta ≤ 200 ∧
  1/10 ≤ d.peakU ∧ d.peakU ≤ 3/10 ∧
  1/10 ≤ d.offU ∧ d.offU ≤ 1/5 ∧
  80 ≤ d.activeBase ∧ d.activeBase ≤ 180 ∧
  5 ≤ d.queue ∧ d.queue ≤ 35 ∧
  45 ≤ d.capacity ∧ d.capacity ≤ 85 ∧
  8 ≤ d.avgWait ∧ d.avgWait ≤ 45 ∧
  200 ≤ d.callsPerHour ∧ d.callsPerHour ≤ 450

/-- `multiplier = 1.0 + random.uniform(0.1, 0.3)` during business hours
(`9 <= hour <= 18`), else `0.4 + random.uniform(0.1, 0.2)`. -/
def liveMultiplier (hour : ℕ) (d : LiveDraws) : ℚ :=
  if 9 ≤ hour ∧ hour ≤ 18 then 1 + d.peakU else 2/5 + d.offU

/-- `get_live_metrics`: the returned Python dict, as an ordered
association list of its six keys. -/
def get_live_metrics (hour : ℕ) (d : LiveDraws) : List (String × ℚ) :=
  let base_calls : ℤ := 4500 + d.baseDelta
  let multiplier := liveMultiplier hour d
  [("active_calls", ((pyInt ((d.activeBase : ℚ) * multiplier) : ℤ) : ℚ)),
   ("calls_today", ((pyInt ((base_calls : ℚ) * multiplier) : ℤ) : ℚ)),
   ("calls_queue", (d.queue : ℚ)),
   ("capacity_utilization", d.capacity),
   ("avg_wait_time", d.avgWait),
   ("calls_per_hour", (d.callsPerHour : ℚ))]

/-! ## `get_language_distribution` (lines 179–193) -/

/-- `get_language_distribution`: rows (Language, Percentage, Calls) of the
returned DataFrame, from the draws `telugu_pct = random.uniform(52, 62)`
and `hindi_pct = random.uniform(22, 30)`. -/
def get_language_distribution (telugu_pct hindi_pct : ℚ) : List (String × ℚ × ℤ) :=
  let english_pct := 100 - telugu_pct - hindi_pct
  [("Telugu", telugu_pct, pyInt (4500 * telugu_pct / 100)),
   ("Hindi", hindi_pct, pyInt (4500 * hindi_pct / 100)),
   ("English", english_pct, pyInt (4500 * english_pct / 100))]

/-- The sampling bounds of the two draws of `get_language_distribution`. -/
def LangValid (telugu_pct hindi_pct : ℚ) : Prop :=
  52 ≤ telugu_pct ∧ telugu_pct ≤ 62 ∧ 22 ≤ hindi_pct ∧ hindi_pct ≤ 30

/-! ## `get_top_intents` (lines 195–204) -/

/-- The five `random.randint` draws of `get_top_intents`. -/
structure IntentDraws where
  bill : ℤ
  outage : ℤ
  payment : ℤ
  complaint : ℤ
  newConn : ℤ

/-- The inclusive bounds of the five draws of `get_top_intents`. -/
def IntentDraws.Valid (d : IntentDraws) : Prop :=
  800 ≤ d.bill ∧ d.bill ≤ 1200 ∧
  600 ≤ d.outage ∧ d.outage ≤ 900 ∧
  400 ≤ d.payment ∧ d.payment ≤ 600 ∧
  300 ≤ d.complaint ∧ d.complaint ≤ 500 ∧
  200 ≤ d.newConn ∧ d.newConn ≤ 400

/-- `get_top_intents`: the (Intent, Count) rows, in source order. -/
def get_top_intents (d : IntentDraws) : List (String × ℤ) :=
  [("Bill Inquiry", d.bill),
   ("Outage Status", d.outage),
   ("Payment Confirmation", d.payment),
   ("Complaint Status", d.complaint),
   ("New Connection", d.newConn)]

/-! ## `get_performance_kpis` (lines 206–220) -/

/-- The dict returned by `get_performance_kpis`. -/
structure PerformanceKPIs where
  containment_rate : ℚ
  containment_target : ℚ
  fcr_rate : ℚ
  fcr_target : ℚ
  avg_handle_time : ℚ
  aht_target : ℚ
  calls_today : ℤ
  calls_yesterday : ℤ
  containment_yesterday : ℚ
  fcr_yesterday : ℚ
  aht_yesterday : ℚ

/-- The random draws consumed by one call of `get_performance_kpis`. -/
structure KpiDraws where
  containment : ℚ
  fcr : ℚ
  aht : ℚ
  callsToday : ℤ
  callsYesterday : ℤ
  containmentY : ℚ
  fcrY : ℚ
  ahtY : ℚ

/-- The inclusive bounds of the random calls of `get_performance_kpis`:
`uniform(68, 78)`, `uniform(65, 75)`, `uniform(4.5, 7.5)`,
`randint(4000, 5500)` twice, `uniform(65, 75)`, `uniform(62, 72)`,
`uniform(5.0, 8.0)`. -/
def KpiDraws.Valid (d : KpiDraws) : Prop :=
  68 ≤ d.containment ∧ d.containment ≤ 78 ∧
  65 ≤ d.fcr ∧ d.fcr ≤ 75 ∧
  9/2 ≤ d.aht ∧ d.aht ≤ 15/2 ∧
  4000 ≤ d.callsToday ∧ d.callsToday ≤ 5500 ∧
  4000 ≤ d.callsYesterday ∧ d.callsYesterday ≤ 5500 ∧
  65 ≤ d.containmentY ∧ d.containmentY ≤ 75 ∧
  62 ≤ d.fcrY ∧ d.fcrY ≤ 72 ∧
  5 ≤ d.ahtY ∧ d.ahtY ≤ 8

/-- `get_performance_kpis`: records the draws next to the fixed targets
`containment_target = 70.0`, `fcr_target = 70.0`, `aht_target = 8.0`. -/
def get_performance_kpis (d : KpiDraws) : PerformanceKPIs :=
  { containment_rate := d.containment
    containment_target := 70
    fcr_rate := d.fcr
    fcr_target := 70
    avg_handle_time := d.aht
    aht_target := 8
    calls_today := d.callsToday
    calls_yesterday := d.callsYesterday
    containment_yesterday := d.containmentY
    fcr_yesterday := d.fcrY
    aht_yesterday := d.ahtY }

/-! ## `get_hourly_call_volume` (lines 222–244) -/

/-- `get_hourly_call_volume(date_range)`: (hour, calls) pairs for hours
0..23.  `noise h` is the `random.randint` draw used at hour `h`:
`randint(-30, 50)` in the today-branch, `randint(-50, 80)` otherwise. -/
def get_hourly_call_volume (date_range : String) (current_hour : ℕ)
    (noise : ℕ → ℤ) : List (ℕ × ℤ) :=
  (List.range 24).zip
    (if date_range = "today" then
      (List.range 24).map fun h =>
        if h ≤ current_hour then (if 9 ≤ h ∧ h ≤ 18 then 150 else 50) + noise h
        else 0
    else
      (List.range 24).map fun h => (if 9 ≤ h ∧ h ≤ 18 then 350 else 100) + noise h)

/-! ## `get_daily_trends` (lines 246–264) -/

/-- One row of the DataFrame returned by `get_daily_trends`; `date` is the
day ordinal produced by `datetime.now() - timedelta(days=i)`. -/
structure DailyTrend where
  date : ℤ
  total_calls : ℤ
  ai_resolved : ℤ
  escalated : ℤ
  containment_rate : ℚ

/-- `get_daily_trends(days)`: iterates over the dates
`now - (days-1), ..., now - 0` (oldest first); at iteration `k` it draws
`total = randint(5500, 7500)` (modelled by `totalDraw k`) and a containment
fraction `uniform(0.68, 0.78)` (modelled by `fracDraw k`). -/
def get_daily_trends (days : ℕ) (today : ℤ) (totalDraw : ℕ → ℤ)
    (fracDraw : ℕ → ℚ) : List DailyTrend :=
  (List.range days).map fun k =>
    let total := totalDraw k
    let contained := pyInt ((total : ℚ) * fracDraw k)
    { date := today - ((days : ℤ) - 1 - (k : ℤ))
      total_calls := total
      ai_resolved := contained
      escalated := total - contained
      containment_rate := ((contained : ℚ) / (total : ℚ)) * 100 }

/-! ## Today-vs-Yesterday deltas (lines 728–770) -/

/-- Line 729: `((calls_today - calls_yesterday) / calls_yesterday) * 100`
with no zero-guard; a zero denominator raises `ZeroDivisionError`,
modelled as `none`. -/
def totalCallsChange (k : PerformanceKPIs) : Option ℚ :=
  if (k.calls_yesterday : ℚ) = 0 then none
  else some ((((k.calls_today : ℚ) - (k.calls_yesterday : ℚ)) / (k.calls_yesterday : ℚ)) * 100)

/-- The guarded pattern of lines 740/751/764:
`((today - yesterday) / yesterday) * 100 if yesterday > 0 else 0`. -/
def pctChangeGuarded (today yesterday : ℤ) : ℚ :=
  if 0 < yesterday then (((today : ℚ) - (yesterday : ℚ)) / (yesterday : ℚ)) * 100 else 0

/-- Line 738: `int(calls_today * containment_rate / 100)`. -/
def ai_resolved (k : PerformanceKPIs) : ℤ :=
  pyInt ((k.calls_today : ℚ) * k.containment_rate / 100)

/-- Line 739: `int(calls_yesterday * containment_yesterday / 100)`. -/
def ai_yesterday (k : PerformanceKPIs) : ℤ :=
  pyInt ((k.calls_yesterday : ℚ) * k.containment_yesterday / 100)

/-- Line 749: `calls_today - int(calls_today * containment_rate / 100)`. -/
def escalated (k : PerformanceKPIs) : ℤ := k.calls_today - ai_resolved k

/-- Line 750. -/
def esc_yesterday (k : PerformanceKPIs) : ℤ := k.calls_yesterday - ai_yesterday k

/-- Line 762: `ai_resolved * 50`. -/
def savings (k : PerformanceKPIs) : ℤ := ai_resolved k * 50

/-- Line 763: `ai_yesterday * 50`. -/
def savings_yesterday (k : PerformanceKPIs) : ℤ := ai_yesterday k * 50

/-- Line 740. -/
def aiResolvedChange (k : PerformanceKPIs) : ℚ :=
  pctChangeGuarded (ai_resolved k) (ai_yesterday k)

/-- Line 751. -/
def escalatedChange (k : PerformanceKPIs) : ℚ :=
  pctChangeGuarded (escalated k) (esc_yesterday k)

/-- Line 764. -/
def costSavingsChange (k : PerformanceKPIs) : ℚ :=
  pctChangeGuarded (savings k) (savings_yesterday k)

/-! ## Shared concrete inputs -/

/-- All draws of `get_live_metrics` at their minimum. -/
def liveDrawsMin : LiveDraws :=
  ⟨-200, 1/10, 1/10, 80, 5, 45, 8, 200⟩

/-- All draws of `get_live_metrics` at their maximum. -/
def liveDrawsMax : LiveDraws :=
  ⟨200, 3/10, 1/5, 180, 35, 85, 45, 450⟩

/-- A mid-range valid draw for `get_performance_kpis`. -/
def kpiDrawsMid : KpiDraws :=
  ⟨70, 70, 5, 5000, 5000, 70, 65, 6⟩

/-! ## Claims -/

/-- C4: in `get_live_metrics`, a business-hour (`9 ≤ hour ≤ 18`) multiplier
lies in [1.10, 1.30] and an off-hour multiplier in [0.50, 0.60]; at
`hour = 14` the minimum draws give `active_calls = ⌊80 · 1.10⌋ = 88` and
the maximum draws give `active_calls = ⌊180 · 1.30⌋ = 234`. -/
theorem live_multiplier_ranges_and_peak_examples (hour : ℕ) (d : LiveDraws)
    (hd : d.Valid) :
    ((9 ≤ hour ∧ hour ≤ 18) →
      11/10 ≤ liveMultiplier hour d ∧ liveMultiplier hour d ≤ 13/10) ∧
    (¬(9 ≤ hour ∧ hour ≤ 18) →
      1/2 ≤ liveMultiplier hour d ∧ liveMultiplier hour d ≤ 3/5) ∧
    (get_live_metrics 14 liveDrawsMin).head? = some ("active_calls", 88) ∧
    (get_live_metrics 14 liveDrawsMax).head? = some ("active_calls", 234) := by
  obtain ⟨-, -, hp1, hp2, ho1, ho2, -⟩ := hd
  refine ⟨fun hp => ?_, fun hp => ?_, ?_, ?_⟩
  · rw [liveMultiplier, if_pos hp]
    constructor <;> linarith
  · rw [liveMultiplier, if_neg hp]
    constructor <;> linarith
  · norm_num [get_live_metrics, liveMultiplier, liveDrawsMin, pyInt]
  · norm_num [get_live_metrics, liveMultiplier, liveDrawsMax, pyInt]

theorem live_multiplier_ranges_and_peak_examples_witness :
    ((9 ≤ 14 ∧ 14 ≤ 18) →
      11/10 ≤ liveMultiplier 14 liveDrawsMin ∧ liveMultiplier 14 liveDrawsMin ≤ 13/10) ∧
    (¬(9 ≤ 14 ∧ 14 ≤ 18) →
      1/2 ≤ liveMultiplier 14 liveDrawsMin ∧ liveMultiplier 14 liveDrawsMin ≤ 3/5) ∧
    (get_live_metrics 14 liveDrawsMin).head? = some ("active_calls", 88) ∧
    (get_live_metrics 14 liveDrawsMax).head? = some ("active_calls", 234) :=
  live_multiplier_ranges_and_peak_examples 14 liveDrawsMin
    (by norm_num [LiveDraws.Valid, liveDrawsMin])

/-- C5: `get_language_distribution` sets the English share to
`100 − telugu − hindi`, so the three percentages sum to 100 exactly; every
call count is `⌊share · 4500 / 100⌋`; Telugu = 55 and Hindi = 25 give
English = 20 and counts [2475, 1125, 900]. -/
theorem language_distribution_sum_and_counts (telugu_pct hindi_pct : ℚ)
    (hv : LangValid telugu_pct hindi_pct) :
    (((get_language_distribution telugu_pct hindi_pct).map fun r => r.2.1).sum = 100) ∧
    (∀ r ∈ get_language_distribution telugu_pct hindi_pct,
      r.2.2 = ⌊r.2.1 * 4500 / 100⌋) ∧
    get_language_distribution 55 25 =
      [("Telugu", 55, 2475), ("Hindi", 25, 1125), ("English", 20, 900)] := by
  obtain ⟨ht1, ht2, hh1, hh2⟩ := hv
  refine ⟨?_, ?_, ?_⟩
  · simp only [get_language_distribution, List.map_cons, List.map_nil, List.sum_cons,
      List.sum_nil]
    ring
  · intro r hr
    have key : ∀ p : ℚ, 0 ≤ p → pyInt (4500 * p / 100) = ⌊p * 4500 / 100⌋ := by
      intro p hp
      rw [pyInt_of_nonneg (by positivity), mul_comm]
    simp only [get_language_distribution, List.mem_cons, List.mem_singleton] at hr
    rcases hr with rfl | rfl | rfl | h
    · exact key telugu_pct (by linarith)
    · exact key hindi_pct (by linarith)
    · exact key (100 - telugu_pct - hindi_pct) (by linarith)
    · exact absurd h (List.not_mem_nil r)
  · norm_num [get_language_distribution, pyInt]

theorem language_distribution_sum_and_counts_witness :
    (((get_language_distribution 55 25).map fun r => r.2.1).sum = 100) ∧
    (∀ r ∈ get_language_distribution 55 25, r.2.2 = ⌊r.2.1 * 4500 / 100⌋) ∧
    get_language_distribution 55 25 =
      [("Telugu", 55, 2475), ("Hindi", 25, 1125), ("English", 20, 900)] :=
  language_distribution_sum_and_counts 55 25 (by norm_num [LangValid])

/-- C8: `get_performance_kpis` always returns `avg_handle_time ∈ [4.5, 7.5]`,
`containment_rate ∈ [68, 78]`, `fcr_rate ∈ [65, 75]`, and the fixed targets
`containment_target = 70`, `fcr_target = 70`, `aht_target = 8`. -/
theorem kpis_today_ranges_and_targets (d : KpiDraws) (hd : d.Valid) :
    9/2 ≤ (get_performance_kpis d).avg_handle_time ∧
    (get_performance_kpis d).avg_handle_time ≤ 15/2 ∧
    68 ≤ (get_performance_kpis d).containment_rate ∧
    (get_performance_kpis d).containment_rate ≤ 78 ∧
    65 ≤ (get_performance_kpis d).fcr_rate ∧
    (get_performance_kpis d).fcr_rate ≤ 75 ∧
    (get_performance_kpis d).containment_target = 70 ∧
    (get_performance_kpis d).fcr_target = 70 ∧
    (get_performance_kpis d).aht_target = 8 := by
  obtain ⟨h1, h2, h3, h4, h5, h6, -⟩ := hd
  exact ⟨h5, h6, h1, h2, h3, h4, rfl, rfl, rfl⟩

theorem kpis_today_ranges_and_targets_witness :
    9/2 ≤ (get_performance_kpis kpiDrawsMid).avg_handle_time ∧
    (get_performance_kpis kpiDrawsMid).avg_handle_time ≤ 15/2 ∧
    68 ≤ (get_performance_kpis kpiDrawsMid).containment_rate ∧
    (get_performance_kpis kpiDrawsMid).containment_rate ≤ 78 ∧
    65 ≤ (get_performance_kpis kpiDrawsMid).fcr_rate ∧
    (get_performance_kpis kpiDrawsMid).fcr_rate ≤ 75 ∧
    (get_performance_kpis kpiDrawsMid).containment_target = 70 ∧
    (get_performance_kpis kpiDrawsMid).fcr_target = 70 ∧
    (get_performance_kpis kpiDrawsMid).aht_target = 8 :=
  kpis_today_ranges_and_targets kpiDrawsMid (by norm_num [KpiDraws.Valid, kpiDrawsMid])

/-- C9: `get_top_intents` returns exactly five rows in the fixed source
order (Bill Inquiry, Outage Status, Payment Confirmation, Complaint Status,
New Connection) with the counts in draw order, never sorted, and
Bill Inquiry's count lies in [800, 1200], New Connection's in [200, 400]. -/
theorem top_intents_fixed_order (d : IntentDraws) (hd : d.Valid) :
    (get_top_intents d).map Prod.fst =
      ["Bill Inquiry", "Outage Status", "Payment Confirmation",
       "Complaint Status", "New Connection"] ∧
    (get_top_intents d).map Prod.snd =
      [d.bill, d.outage, d.payment, d.complaint, d.newConn] ∧
    (get_top_intents d).length = 5 ∧
    (get_top_intents d).head? = some ("Bill Inquiry", d.bill) ∧
    800 ≤ d.bill ∧ d.bill ≤ 1200 ∧
    (get_top_intents d).getLast? = some ("New Connection", d.newConn) ∧
    200 ≤ d.newConn ∧ d.newConn ≤ 400 := by
  obtain ⟨hb1, hb2, -, -, -, -, -, -, hn1, hn2⟩ := hd
  exact ⟨rfl, rfl, rfl, rfl, hb1, hb2, rfl, hn1, hn2⟩

theorem top_intents_fixed_order_witness :
    ((get_top_intents ⟨1000, 700, 500, 400, 300⟩).map Prod.fst =
      ["Bill Inquiry", "Outage Status", "Payment Confirmation",
       "Complaint Status", "New Connection"]) ∧
    ((get_top_intents ⟨1000, 700, 500, 400, 300⟩).map Prod.snd =
      [1000, 700, 500, 400, 300]) ∧
    ((get_top_intents ⟨1000, 700, 500, 400, 300⟩).length = 5) ∧
    ((get_top_intents ⟨1000, 700, 500, 400, 300⟩).head? = some ("Bill Inquiry", 1000)) ∧
    (800 ≤ (1000 : ℤ)) ∧ ((1000 : ℤ) ≤ 1200) ∧
    ((get_top_intents ⟨1000, 700, 500, 400, 300⟩).getLast? = some ("New Connection", 300)) ∧
    (200 ≤ (300 : ℤ)) ∧ ((300 : ℤ) ≤ 400) :=
  top_intents_fixed_order ⟨1000, 700, 500, 400, 300⟩
    (by norm_num [IntentDraws.Valid])


theorem zip_self_map {α β : Type} (l : List α) (f : α → β) :
    l.zip (l.map f) = l.map fun a => (a, f a) := by
  induction l with
  | nil => rfl
  | cons a l ih => simp [List.zip_cons_cons, ih]

theorem hourly_today_eq (current_hour : ℕ) (noise : ℕ → ℤ) :
    get_hourly_call_volume "today" current_hour noise =
      (List.range 24).map fun h =>
        (h, if h ≤ current_hour then (if 9 ≤ h ∧ h ≤ 18 then 150 else 50) + noise h
            else 0) := by
  unfold get_hourly_call_volume
  rw [if_pos rfl, zip_self_map]

theorem hourly_other_eq (date_range : String) (hdr : date_range ≠ "today")
    (current_hour : ℕ) (noise : ℕ → ℤ) :
    get_hourly_call_volume date_range current_hour noise =
      (List.range 24).map fun h =>
        (h, (if 9 ≤ h ∧ h ≤ 18 then 350 else 100) + noise h) := by
  unfold get_hourly_call_volume
  rw [if_neg hdr, zip_self_map]

/-- C6: for every `days ≥ 1`, `get_daily_trends` returns one entry per day
for `days` consecutive days ending today, oldest first; in every entry
`ai_resolved + escalated = total_calls` exactly, `total_calls ∈ [5500, 7500]`,
and `ai_resolved = ⌊total_calls · f⌋` for the drawn fraction
`f ∈ [0.68, 0.78]`. -/
theorem daily_trends_invariants (days : ℕ) (_hdays : 1 ≤ days) (today : ℤ)
    (totalDraw : ℕ → ℤ) (fracDraw : ℕ → ℚ)
    (hv : ∀ k, k < days →
      (5500 ≤ totalDraw k ∧ totalDraw k ≤ 7500) ∧
      (17/25 ≤ fracDraw k ∧ fracDraw k ≤ 39/50)) :
    (get_daily_trends days today totalDraw fracDraw).length = days ∧
    ∀ k, k < days → ∀ e,
      (get_daily_trends days today totalDraw fracDraw)[k]? = some e →
      e.date = today - ((days : ℤ) - 1 - (k : ℤ)) ∧
      e.ai_resolved + e.escalated = e.total_calls ∧
      5500 ≤ e.total_calls ∧ e.total_calls ≤ 7500 ∧
      e.ai_resolved = ⌊(totalDraw k : ℚ) * fracDraw k⌋ := by
  constructor
  · simp [get_daily_trends]
  · intro k hk e he
    obtain ⟨⟨ht1, ht2⟩, hf1, hf2⟩ := hv k hk
    have hprod : (0 : ℚ) ≤ (totalDraw k : ℚ) * fracDraw k := by
      apply mul_nonneg
      · exact_mod_cast le_trans (by norm_num : (0:ℤ) ≤ 5500) ht1
      · linarith
    simp only [get_daily_trends, List.getElem?_map, List.getElem?_range, hk,
      if_pos, Option.map_some', Option.some.injEq] at he
    subst he
    dsimp only
    exact ⟨rfl, by omega, ht1, ht2, pyInt_of_nonneg hprod⟩

theorem daily_trends_invariants_witness :
    (get_daily_trends 7 20000 (fun _ => 6000) (fun _ => 7/10)).length = 7 ∧
    ∀ k : ℕ, k < 7 → ∀ e,
      (get_daily_trends 7 20000 (fun _ => 6000) (fun _ => 7/10))[k]? = some e →
      e.date = 20000 - ((7 : ℤ) - 1 - (k : ℤ)) ∧
      e.ai_resolved + e.escalated = e.total_calls ∧
      5500 ≤ e.total_calls ∧ e.total_calls ≤ 7500 ∧
      e.ai_resolved = ⌊((6000 : ℤ) : ℚ) * (7/10 : ℚ)⌋ :=
  daily_trends_invariants 7 (by norm_num) 20000 (fun _ => 6000) (fun _ => 7/10)
    (by intro k hk; norm_num)

/-- C7: `get_hourly_call_volume` in today mode reports volume 0 for every
hour strictly greater than the current hour. -/
theorem hourly_volume_future_hours_zero (current_hour : ℕ) (noise : ℕ → ℤ) :
    ∀ p ∈ get_hourly_call_volume "today" current_hour noise,
      current_hour < p.1 → p.2 = 0 := by
  intro p hp hgt
  rw [hourly_today_eq, List.mem_map] at hp
  obtain ⟨h, -, rfl⟩ := hp
  have hgt2 : current_hour < h := hgt
  show (if h ≤ current_hour then (if 9 ≤ h ∧ h ≤ 18 then 150 else 50) + noise h
        else 0) = 0
  rw [if_neg (by omega)]

theorem hourly_volume_future_hours_zero_witness : ((20, 0) : ℕ × ℤ).2 = 0 :=
  hourly_volume_future_hours_zero 14 (fun _ => 0) (20, 0) (by decide) (by decide)

/-- C10: every volume reported by `get_hourly_call_volume` is non-negative
in either mode (given the noise bounds of the mode's `randint` calls), and
in today mode every hour up to and including the current hour reports at
least 20 = 50 − 30, so the current hour never reports 0. -/
theorem hourly_volume_nonneg_bounds (date_range : String) (current_hour : ℕ)
    (noise : ℕ → ℤ)
    (hn : ∀ h, if date_range = "today"
      then -30 ≤ noise h ∧ noise h ≤ 50
      else -50 ≤ noise h ∧ noise h ≤ 80) :
    (∀ p ∈ get_hourly_call_volume date_range current_hour noise, 0 ≤ p.2) ∧
    (date_range = "today" →
      ∀ p ∈ get_hourly_call_volume date_range current_hour noise,
        p.1 ≤ current_hour → 20 ≤ p.2) := by
  by_cases hdr : date_range = "today"
  · subst hdr
    have hn2 : ∀ h, -30 ≤ noise h ∧ noise h ≤ 50 := by
      intro h
      have := hn h
      rwa [if_pos rfl] at this
    constructor
    · intro p hp
      rw [hourly_today_eq, List.mem_map] at hp
      obtain ⟨h, -, rfl⟩ := hp
      obtain ⟨hb1, hb2⟩ := hn2 h
      show 0 ≤ (if h ≤ current_hour then (if 9 ≤ h ∧ h ≤ 18 then 150 else 50) + noise h
                else 0)
      split
      · split <;> omega
      · omega
    · intro _ p hp hle
      rw [hourly_today_eq, List.mem_map] at hp
      obtain ⟨h, -, rfl⟩ := hp
      obtain ⟨hb1, hb2⟩ := hn2 h
      have hle2 : h ≤ current_hour := hle
      show 20 ≤ (if h ≤ current_hour then (if 9 ≤ h ∧ h ≤ 18 then 150 else 50) + noise h
                 else 0)
      rw [if_pos hle2]
      split <;> omega
  · have hn2 : ∀ h, -50 ≤ noise h ∧ noise h ≤ 80 := by
      intro h
      have := hn h
      rwa [if_neg hdr] at this
    refine ⟨?_, fun hcontra => absurd hcontra hdr⟩
    intro p hp
    rw [hourly_other_eq date_range hdr, List.mem_map] at hp
    obtain ⟨h, -, rfl⟩ := hp
    obtain ⟨hb1, hb2⟩ := hn2 h
    show 0 ≤ (if 9 ≤ h ∧ h ≤ 18 then 350 else 100) + noise h
    split <;> omega

theorem hourly_volume_nonneg_bounds_witness :
    (0 ≤ ((0, 50) : ℕ × ℤ).2) ∧ (20 ≤ ((0, 50) : ℕ × ℤ).2) :=
  ⟨(hourly_volume_nonneg_bounds "today" 14 (fun _ => 0)
      (fun h => by norm_num)).1 (0, 50) (by decide),
   (hourly_volume_nonneg_bounds "today" 14 (fun _ => 0)
      (fun h => by norm_num)).2 rfl (0, 50) (by decide) (by decide)⟩

/-! ## Corrected-claim inputs -/

/-- A KPI dict with a zero yesterday baseline for total calls, fed to the
line-729 computation. -/
def kpisZeroYesterday : PerformanceKPIs :=
  { containment_rate := 72
    containment_target := 70
    fcr_rate := 70
    fcr_target := 70
    avg_handle_time := 6
    aht_target := 8
    calls_today := 5000
    calls_yesterday := 0
    containment_yesterday := 70
    fcr_yesterday := 67
    aht_yesterday := 6 }

/-- A valid KPI draw whose yesterday baselines sit at the bottom of their
source ranges, outside the today ranges. -/
def kpiDrawsLowYesterday : KpiDraws :=
  ⟨70, 70, 5, 5000, 5000, 65, 62, 8⟩

/-- C1 counterexample: the Total Calls change of line 729 has no
zero-denominator guard; on a zero yesterday baseline it raises
`ZeroDivisionError` (modelled `none`) instead of returning 0. -/
theorem totalCallsChange_unguarded_counterexample :
    kpisZeroYesterday.calls_yesterday = 0 ∧
    totalCallsChange kpisZeroYesterday = none ∧
    totalCallsChange kpisZeroYesterday ≠ some 0 := by
  refine ⟨rfl, ?_, ?_⟩ <;>
    simp [totalCallsChange, kpisZeroYesterday]

/-- C1 (amended): the guarded pattern of the AI Resolved, Escalated and
Cost Savings changes returns 0 on a non-positive yesterday denominator for
any numerator; the Total Calls change is unguarded, but its denominator
`calls_yesterday` is sampled from [4000, 5500] and is never 0, so that
computation never raises either. -/
theorem today_vs_yesterday_zero_denominator_policy (t : ℤ)
    (k : PerformanceKPIs) (d : KpiDraws) (hd : d.Valid) :
    pctChangeGuarded t 0 = 0 ∧
    (ai_yesterday k = 0 → aiResolvedChange k = 0) ∧
    (esc_yesterday k = 0 → escalatedChange k = 0) ∧
    (savings_yesterday k = 0 → costSavingsChange k = 0) ∧
    (totalCallsChange (get_performance_kpis d)).isSome = true := by
  obtain ⟨-, -, -, -, -, -, -, -, hy1, -⟩ := hd
  refine ⟨?_, ?_, ?_, ?_, ?_⟩
  · simp [pctChangeGuarded]
  · intro h0
    rw [aiResolvedChange, h0]
    simp [pctChangeGuarded]
  · intro h0
    rw [escalatedChange, h0]
    simp [pctChangeGuarded]
  · intro h0
    rw [costSavingsChange, h0]
    simp [pctChangeGuarded]
  · rw [totalCallsChange, if_neg]
    · rfl
    · have : (0 : ℤ) < d.callsYesterday := by omega
      simp only [get_performance_kpis]
      exact_mod_cast ne_of_gt this

theorem today_vs_yesterday_zero_denominator_policy_witness :
    pctChangeGuarded 5 0 = 0 ∧
    (ai_yesterday kpisZeroYesterday = 0 → aiResolvedChange kpisZeroYesterday = 0) ∧
    (esc_yesterday kpisZeroYesterday = 0 → escalatedChange kpisZeroYesterday = 0) ∧
    (savings_yesterday kpisZeroYesterday = 0 → costSavingsChange kpisZeroYesterday = 0) ∧
    (totalCallsChange (get_performance_kpis kpiDrawsLowYesterday)).isSome = true :=
  today_vs_yesterday_zero_denominator_policy 5 kpisZeroYesterday kpiDrawsLowYesterday
    (by norm_num [KpiDraws.Valid, kpiDrawsLowYesterday])

/-- C2 counterexample: a valid draw of `get_performance_kpis` whose
yesterday baselines all fall outside the ranges of the corresponding
today values ([68, 78], [65, 75], [4.5, 7.5]). -/
theorem kpis_yesterday_baseline_counterexample :
    kpiDrawsLowYesterday.Valid ∧
    ¬(68 ≤ (get_performance_kpis kpiDrawsLowYesterday).containment_yesterday) ∧
    ¬(65 ≤ (get_performance_kpis kpiDrawsLowYesterday).fcr_yesterday) ∧
    ¬((get_performance_kpis kpiDrawsLowYesterday).aht_yesterday ≤ 15/2) := by
  refine ⟨by norm_num [KpiDraws.Valid, kpiDrawsLowYesterday], ?_, ?_, ?_⟩ <;>
    norm_num [get_performance_kpis, kpiDrawsLowYesterday]

/-- C2 (amended): `get_performance_kpis` samples the yesterday baselines
from ranges shifted below today's: `containment_yesterday ∈ [65, 75]`,
`fcr_yesterday ∈ [62, 72]`, `aht_yesterday ∈ [5.0, 8.0]`. -/
theorem kpis_yesterday_baseline_ranges (d : KpiDraws) (hd : d.Valid) :
    65 ≤ (get_performance_kpis d).containment_yesterday ∧
    (get_performance_kpis d).containment_yesterday ≤ 75 ∧
    62 ≤ (get_performance_kpis d).fcr_yesterday ∧
    (get_performance_kpis d).fcr_yesterday ≤ 72 ∧
    5 ≤ (get_performance_kpis d).aht_yesterday ∧
    (get_performance_kpis d).aht_yesterday ≤ 8 := by
  obtain ⟨-, -, -, -, -, -, -, -, -, -, h1, h2, h3, h4, h5, h6⟩ := hd
  exact ⟨h1, h2, h3, h4, h5, h6⟩

theorem kpis_yesterday_baseline_ranges_witness :
    65 ≤ (get_performance_kpis kpiDrawsMid).containment_yesterday ∧
    (get_performance_kpis kpiDrawsMid).containment_yesterday ≤ 75 ∧
    62 ≤ (get_performance_kpis kpiDrawsMid).fcr_yesterday ∧
    (get_performance_kpis kpiDrawsMid).fcr_yesterday ≤ 72 ∧
    5 ≤ (get_performance_kpis kpiDrawsMid).aht_yesterday ∧
    (get_performance_kpis kpiDrawsMid).aht_yesterday ≤ 8 :=
  kpis_yesterday_baseline_ranges kpiDrawsMid (by norm_num [KpiDraws.Valid, kpiDrawsMid])

/-- C3 counterexample: on a valid call, the snapshot returned by
`get_live_metrics` does not consist of exactly the four fields
active_calls, calls_today, calls_queue, capacity_utilization. -/
theorem live_metrics_six_fields_counterexample :
    liveDrawsMin.Valid ∧
    (get_live_metrics 14 liveDrawsMin).map Prod.fst ≠
      ["active_calls", "calls_today", "calls_queue", "capacity_utilization"] := by
  refine ⟨by norm_num [LiveDraws.Valid, liveDrawsMin], ?_⟩
  simp [get_live_metrics]

/-- C3 (amended): `get_live_metrics` returns a snapshot of exactly six
fields — the four named by the claim plus `avg_wait_time` and
`calls_per_hour` — with `active_calls` and `calls_today` non-negative
integers, `calls_queue ∈ [5, 35]`, and `capacity_utilization ∈ [45, 85]`,
hence within [0, 100]. -/
theorem live_metrics_fields_and_bounds (hour : ℕ) (d : LiveDraws)
    (hd : d.Valid) :
    ∃ a c : ℤ,
      get_live_metrics hour d =
        [("active_calls", (a : ℚ)), ("calls_today", (c : ℚ)),
         ("calls_queue", (d.queue : ℚ)), ("capacity_utilization", d.capacity),
         ("avg_wait_time", d.avgWait), ("calls_per_hour", (d.callsPerHour : ℚ))] ∧
      0 ≤ a ∧ 0 ≤ c ∧
      5 ≤ d.queue ∧ d.queue ≤ 35 ∧
      0 ≤ d.capacity ∧ 45 ≤ d.capacity ∧ d.capacity ≤ 85 ∧ d.capacity ≤ 100 := by
  obtain ⟨hb1, hb2, hp1, hp2, ho1, ho2, ha1, ha2, hq1, hq2, hc1, hc2, -⟩ := hd
  have hm : 1/2 ≤ liveMultiplier hour d := by
    unfold liveMultiplier
    split <;> linarith
  have hbase : (0 : ℚ) ≤ ((4500 + d.baseDelta : ℤ) : ℚ) := by
    have : (0 : ℤ) ≤ 4500 + d.baseDelta := by omega
    exact_mod_cast this
  have hactive : (0 : ℚ) ≤ (d.activeBase : ℚ) := by
    have : (0 : ℤ) ≤ d.activeBase := by omega
    exact_mod_cast this
  refine ⟨pyInt ((d.activeBase : ℚ) * liveMultiplier hour d),
          pyInt (((4500 + d.baseDelta : ℤ) : ℚ) * liveMultiplier hour d),
          rfl, ?_, ?_, hq1, hq2, by linarith, hc1, hc2, by linarith⟩
  · exact pyInt_nonneg (mul_nonneg hactive (by linarith))
  · exact pyInt_nonneg (mul_nonneg hbase (by linarith))

theorem live_metrics_fields_and_bounds_witness :
    ∃ a c : ℤ,
      get_live_metrics 14 liveDrawsMin =
        [("active_calls", (a : ℚ)), ("calls_today", (c : ℚ)),
         ("calls_queue", (liveDrawsMin.queue : ℚ)),
         ("capacity_utilization", liveDrawsMin.capacity),
         ("avg_wait_time", liveDrawsMin.avgWait),
         ("calls_per_hour", (liveDrawsMin.callsPerHour : ℚ))] ∧
      0 ≤ a ∧ 0 ≤ c ∧
      5 ≤ liveDrawsMin.queue ∧ liveDrawsMin.queue ≤ 35 ∧
      0 ≤ liveDrawsMin.capacity ∧ 45 ≤ liveDrawsMin.capacity ∧
      liveDrawsMin.capacity ≤ 85 ∧ liveDrawsMin.capacity ≤ 100 :=
  live_metrics_fields_and_bounds 14 liveDrawsMin
    (by norm_num [LiveDraws.Valid, liveDrawsMin])
